import Mathlib

/-!
Shallow embedding of the merrymac-backend intelligence pipeline.

Source files embedded here:
- the StrategyEngine class (execution history, cooldown, drift/recovery
  adjustment, strategy derivation and generation),
- the ViolationEngine (profile scan, per-tradeline Metro-2 rules),
- the IntelligenceLoop lifecycle (scan, strategy generation, plan
  fingerprint, idempotency check, orchestration seeding),
- the OrchestrationEngine's generatePlanFromStrategies,
- entity resolution (normalizeCreditorName, isDuplicate,
  resolveTradelineDuplicates),
- the normalization helpers (calculateConfidenceDecay, resolveFieldConflict).

Modelling conventions:
- JavaScript numbers are modelled as rationals; the float literal 0.05 is
  modelled as 1/20.
- ISO-8601 date strings are modelled by their epoch-millisecond timestamps
  (a rational); a null date is none.  The current wall-clock time
  (new Date()) is passed explicitly as a parameter now.
- uuidv4() is modelled by an explicit id supply (a function from a draw
  counter to strings); every function that mints ids threads the counter.
- The md5 digest used for the plan hash is modelled injectively: the
  fingerprint string itself stands for its digest (the spec itself notes
  the digest is a best-effort de-duplication signal over that string).
- A JavaScript runtime value that may be either a number or a string
  (the balance field can hold the CONFLICT sentinel string) is modelled by
  JsVal; arithmetic on a string value yields NaN in JavaScript, so every
  numeric comparison on a JsVal.str returns false, which the helpers below
  reproduce.  The only string ever written into a numeric field by the
  pipeline is the CONFLICT sentinel (which coerces to NaN).
-/

namespace MerryMac

/-- A JavaScript runtime value of a numeric field: an actual number, a
string (the CONFLICT sentinel), or null. -/
inductive JsVal
  | num (q : ℚ)
  | str (s : String)
  | nullV
deriving DecidableEq

/-- An execution outcome recorded by the Strategy Engine. -/
inductive Outcome
  | SUCCESS
  | LEGAL_REJECTION
  | SYSTEM_ERROR
deriving DecidableEq

/-- One execution-history entry: { ruleId, type, outcome, date }. -/
structure HistEntry where
  ruleId : String
  type : String
  outcome : Outcome
  date : ℚ
deriving DecidableEq

/-- Violation severity. -/
inductive Severity
  | LOW
  | MEDIUM
  | HIGH
deriving DecidableEq

/-- Litigation risk. -/
inductive Risk
  | LOW
  | MEDIUM
  | HIGH
deriving DecidableEq

/-- The EnforcementStrategy type union from intelligence_types. -/
inductive SType
  | DISPUTE
  | BLOCK_605B
  | CFPB_COMPLAINT
  | ESCALATION
  | MONITOR
deriving DecidableEq

/-- NormalizedField<T>: a fact with provenance and trust weighting. -/
structure NormalizedField (α : Type) where
  value : α
  originalValue : String
  confidence : ℚ
  source : String
deriving DecidableEq

/-- A detected Violation. -/
structure Violation where
  id : String
  rule_id : String
  severity : Severity
  description : String
  statute : String
  remedy : String
  confidence : ℚ
  relatedEntityId : String
deriving DecidableEq

/-- IntelligenceTradeline: one reported credit account. -/
structure Tradeline where
  id : String
  creditor : NormalizedField String
  accountNumber : NormalizedField String
  accountType : NormalizedField String
  dateOpened : NormalizedField (Option ℚ)
  dateLastActive : NormalizedField (Option ℚ)
  dateClosed : NormalizedField (Option ℚ)
  balance : NormalizedField JsVal
  creditLimit : NormalizedField JsVal
  pastDueAmount : NormalizedField JsVal
  status : NormalizedField String
  statusCode : NormalizedField String
  paymentHistory : List String
  isDisputed : Bool
  remarks : List String
  violations : List Violation
deriving DecidableEq

/-- The declarativeMetadata record attached to a strategy (the fields the
StrategyEngine actually writes). -/
structure StrategyMetadata where
  reason : String
  statute : Option String
  errorCount : Option ℕ
  driftApplied : ℚ
  recoveryApplied : ℚ
deriving DecidableEq

/-- An EnforcementStrategy. -/
structure EnforcementStrategy where
  id : String
  type : SType
  targetEntityId : String
  violationIds : List String
  removalProbability : ℚ
  litigationRisk : Risk
  recommendedAction : String
  declarativeMetadata : StrategyMetadata
deriving DecidableEq

/-- The slice of UserCreditProfile the embedded operations touch. -/
structure UserCreditProfile where
  userId : String
  tradelines : List Tradeline
  activeViolations : List Violation
  activeStrategies : List EnforcementStrategy
deriving DecidableEq

/-- The process-wide execution-history map, keyed by target entity id
(a missing key reads as the empty list). -/
abbrev ExecutionHistory := String → List HistEntry

/-- The uuidv4 supply: draw counter to id string. -/
abbrev IdGen := ℕ → String

/-- Milliseconds per day (1000 * 3600 * 24). -/
def msPerDay : ℚ := 86400000

/-- JavaScript Math.floor on a rational. -/
def jsFloor (q : ℚ) : ℤ := Int.fdiv q.num q.den

/-- JavaScript Math.round on a rational (round half toward +infinity). -/
def jsRound (q : ℚ) : ℤ := jsFloor (q + 1 / 2)

/-- Truncation toward zero of a rational, as date-fns differenceInDays
truncates the fractional day. -/
def ratTrunc (q : ℚ) : ℤ := if 0 ≤ q then jsFloor q else -jsFloor (-q)

/-- date-fns differenceInDays between two epoch-ms instants. -/
def diffInDays (now d : ℚ) : ℤ := ratTrunc ((now - d) / msPerDay)

/-- Whether the first character list is a prefix of the second. -/
def listPrefixOf : List Char → List Char → Bool
  | [], _ => true
  | _ :: _, [] => false
  | a :: as, b :: bs => a == b && listPrefixOf as bs

/-- Whether the first character list occurs contiguously in the second. -/
def listInfixOf (t s : List Char) : Bool :=
  match s with
  | [] => t.isEmpty
  | _ :: rest => listPrefixOf t s || listInfixOf t rest

/-- JavaScript substring containment: s.includes(t). -/
def strContains (s t : String) : Bool := listInfixOf t.toList s.toList

/-- JavaScript s.startsWith(pre). -/
def strStartsWith (s pre : String) : Bool := listPrefixOf pre.toList s.toList

/-- JavaScript s.endsWith(suf). -/
def strEndsWith (s suf : String) : Bool := listPrefixOf suf.toList.reverse s.toList.reverse

/-- JavaScript s.toLowerCase() (ASCII inputs). -/
def strToLower (s : String) : String := (s.toList.map Char.toLower).asString

/-- JavaScript s.toUpperCase() (ASCII inputs). -/
def strToUpper (s : String) : String := (s.toList.map Char.toUpper).asString

/-- An ASCII whitespace character (the whitespace JavaScript trim
removes on the inputs this pipeline sees). -/
def charWhite (c : Char) : Bool := decide (c = ' ' ∨ c = '\t' ∨ c = '\n' ∨ c = '\r')

/-- JavaScript s.trim(). -/
def strTrim (s : String) : String :=
  (((s.toList.dropWhile charWhite).reverse.dropWhile charWhite).reverse).asString

/-- JavaScript v > 0 on a runtime value (NaN comparisons are false). -/
def jsValGtZero (v : JsVal) : Bool :=
  match v with
  | .num q => decide (0 < q)
  | _ => false

/-- JavaScript Math.abs(a - b) < c on runtime values (NaN is never < c). -/
def jsAbsDiffLt (a b : JsVal) (c : ℚ) : Bool :=
  match a, b with
  | .num x, .num y => decide (|x - y| < c)
  | _, _ => false

/-- JavaScript template interpolation of a runtime value. -/
def jsValStr (v : JsVal) : String :=
  match v with
  | .num q => if q.den = 1 then toString q.num else toString q
  | .str s => s
  | .nullV => "null"

/-! ## StrategyEngine (src/src/config/env.ts, StrategyEngine class) -/

/-- StrategyEngine.COOLDOWN_DAYS. -/
def COOLDOWN_DAYS : ℚ := 30

/-- StrategyEngine.MIN_CONFIDENCE_THRESHOLD. -/
def MIN_CONFIDENCE_THRESHOLD : ℚ := 60

/-- StrategyEngine.recordOutcome: appends an entry to the entity's
history; date models the call instant (new Date().toISOString()). -/
def recordOutcome (h : ExecutionHistory) (entityId ruleId ty : String)
    (outcome : Outcome) (date : ℚ) : ExecutionHistory :=
  fun e => if e = entityId then h e ++ [⟨ruleId, ty, outcome, date⟩] else h e

/-- StrategyEngine.isInCooldown: an entry for the same entity, rule and
type, with a non-SYSTEM_ERROR outcome, within the last 30 days. -/
def isInCooldown (h : ExecutionHistory) (now : ℚ)
    (entityId ruleId ty : String) : Bool :=
  (h entityId).any fun e =>
    decide (e.ruleId = ruleId ∧ e.type = ty ∧ e.outcome ≠ Outcome.SYSTEM_ERROR ∧
      (now - e.date) / msPerDay < COOLDOWN_DAYS)

/-- The LEGAL_REJECTION entries of a history list. -/
def legalRejections (l : List HistEntry) : List HistEntry :=
  l.filter fun e => decide (e.outcome = Outcome.LEGAL_REJECTION)

/-- Drift penalty: legalFailures.length * -15. -/
def driftAdjustment (l : List HistEntry) : ℚ :=
  ((legalRejections l).length : ℚ) * (-15)

/-- Recovery curve: Math.floor(daysSinceLastFailure / 180) * 5 when a
LEGAL_REJECTION exists (the most recent one via Math.max over dates),
else 0. -/
def recoveryAdjustment (now : ℚ) (l : List HistEntry) : ℚ :=
  match legalRejections l with
  | [] => 0
  | f :: rest =>
    let lastFailureDate := rest.foldl (fun acc e => max acc e.date) f.date
    let daysSinceLastFailure := (now - lastFailureDate) / msPerDay
    ((jsFloor (daysSinceLastFailure / 180) : ℤ) : ℚ) * 5

/-- totalAdjustment = Math.min(0, drift + recovery). -/
def totalAdjustment (now : ℚ) (l : List HistEntry) : ℚ :=
  min 0 (driftAdjustment l + recoveryAdjustment now l)

/-- The violations that survive the cooldown filter in deriveStrategy:
not in cooldown for the DISPUTE type and not for the CFPB_COMPLAINT
type. -/
def actionableOf (h : ExecutionHistory) (now : ℚ) (entityId : String)
    (violations : List Violation) : List Violation :=
  violations.filter fun v =>
    !(isInCooldown h now entityId v.rule_id "DISPUTE") &&
    !(isInCooldown h now entityId v.rule_id "CFPB_COMPLAINT")

/-- StrategyEngine.deriveStrategy: cooldown filter, drift/recovery
adjustment, then first-match tiering (HIGH severity, count >= 3, default
dispute). -/
def deriveStrategy (h : ExecutionHistory) (now : ℚ) (ids : IdGen) (k : ℕ)
    (entityId : String) (violations : List Violation) :
    Option EnforcementStrategy :=
  if (actionableOf h now entityId violations).isEmpty then none
  else
    match (actionableOf h now entityId violations).filter
        (fun v => decide (v.severity = Severity.HIGH)) with
    | hv :: _ =>
      some { id := ids k
             type := SType.CFPB_COMPLAINT
             targetEntityId := entityId
             violationIds := (actionableOf h now entityId violations).map (·.id)
             removalProbability := max 10 (85 + totalAdjustment now (h entityId))
             litigationRisk := Risk.HIGH
             recommendedAction := "Official CFPB Portal Submission"
             declarativeMetadata :=
               { reason := "Critical accuracy failure detected (" ++ hv.rule_id ++ ")."
                 statute := some hv.statute
                 errorCount := none
                 driftApplied := driftAdjustment (h entityId)
                 recoveryApplied := recoveryAdjustment now (h entityId) } }
    | [] =>
      if 3 ≤ (actionableOf h now entityId violations).length then
        some { id := ids k
               type := SType.ESCALATION
               targetEntityId := entityId
               violationIds := (actionableOf h now entityId violations).map (·.id)
               removalProbability := max 10 (70 + totalAdjustment now (h entityId))
               litigationRisk := Risk.MEDIUM
               recommendedAction := "Direct Furnisher Escalation"
               declarativeMetadata :=
                 { reason := "Multiple systemic reporting errors suggest process failure."
                   statute := none
                   errorCount := some (actionableOf h now entityId violations).length
                   driftApplied := driftAdjustment (h entityId)
                   recoveryApplied := recoveryAdjustment now (h entityId) } }
      else
        some { id := ids k
               type := SType.DISPUTE
               targetEntityId := entityId
               violationIds := (actionableOf h now entityId violations).map (·.id)
               removalProbability := max 10 (55 + totalAdjustment now (h entityId))
               litigationRisk := Risk.LOW
               recommendedAction := "Standard Bureau Dispute Letter"
               declarativeMetadata :=
                 { reason := "Reporting inconsistency requires verification."
                   statute := none
                   errorCount := none
                   driftApplied := driftAdjustment (h entityId)
                   recoveryApplied := recoveryAdjustment now (h entityId) } }

/-- First-occurrence-order deduplication, mirroring the insertion order of
a JavaScript Map's keys. -/
def dedupFirst (l : List String) : List String :=
  l.foldl (fun acc x => if x ∈ acc then acc else acc ++ [x]) []

/-- The entity keys of the violation grouping map, in insertion order. -/
def entityOrder (vs : List Violation) : List String :=
  dedupFirst (vs.map (·.relatedEntityId))

/-- The violations grouped under one entity key. -/
def violationsFor (vs : List Violation) (e : String) : List Violation :=
  vs.filter fun v => decide (v.relatedEntityId = e)

/-- The conflict-freeze test of generateStrategies: the entity's
tradeline exists, its balance confidence is >= 90 and its balance
originalValue is the CONFLICT sentinel. -/
def conflictFrozen (profile : UserCreditProfile) (entityId : String) : Bool :=
  match profile.tradelines.find? (fun t => decide (t.id = entityId)) with
  | some t => decide (90 ≤ t.balance.confidence) && decide (t.balance.originalValue = "CONFLICT")
  | none => false

/-- The per-entity loop of generateStrategies: skip frozen entities,
derive a strategy for the rest (a uuid is drawn per derived strategy). -/
def generateStrategiesGo (h : ExecutionHistory) (now : ℚ) (ids : IdGen)
    (profile : UserCreditProfile) (valid : List Violation) :
    List String → ℕ → List EnforcementStrategy × ℕ
  | [], k => ([], k)
  | e :: rest, k =>
    if conflictFrozen profile e then
      generateStrategiesGo h now ids profile valid rest k
    else
      match deriveStrategy h now ids k e (violationsFor valid e) with
      | some s =>
        (s :: (generateStrategiesGo h now ids profile valid rest (k + 1)).1,
         (generateStrategiesGo h now ids profile valid rest (k + 1)).2)
      | none => generateStrategiesGo h now ids profile valid rest k

/-- The confidence gate: violations at or above the minimum confidence
threshold. -/
def validViolations (profile : UserCreditProfile) : List Violation :=
  profile.activeViolations.filter fun v =>
    decide (MIN_CONFIDENCE_THRESHOLD ≤ v.confidence)

/-- StrategyEngine.generateStrategies: confidence gate, grouping by
entity, conflict freeze, per-entity derivation; writes activeStrategies
back onto the profile and returns the strategies. -/
def generateStrategies (h : ExecutionHistory) (now : ℚ) (ids : IdGen)
    (k : ℕ) (profile : UserCreditProfile) :
    UserCreditProfile × List EnforcementStrategy × ℕ :=
  ({ profile with
      activeStrategies :=
        (generateStrategiesGo h now ids profile (validViolations profile)
          (entityOrder (validViolations profile)) k).1 },
   (generateStrategiesGo h now ids profile (validViolations profile)
     (entityOrder (validViolations profile)) k).1,
   (generateStrategiesGo h now ids profile (validViolations profile)
     (entityOrder (validViolations profile)) k).2)

/-! ## ViolationEngine (src/unnamed/part_010) -/

/-- ViolationEngine.createViolation: clamps confidence to [0, 100]. -/
def createViolation (ids : IdGen) (k : ℕ) (rule_id : String) (severity : Severity)
    (description statute remedy entityId : String) (confidence : ℚ) : Violation :=
  { id := ids k
    rule_id := rule_id
    severity := severity
    description := description
    statute := statute
    remedy := remedy
    confidence := min 100 (max 0 confidence)
    relatedEntityId := entityId }

/-- ViolationEngine.scanTradeline: the staleness guard and the four
deterministic Metro-2 rules, in source order; each finding draws a fresh
uuid. -/
def scanTradeline (now : ℚ) (ids : IdGen) (k : ℕ) (tl : Tradeline) :
    List Violation × ℕ :=
  let reportedDate : Option ℚ :=
    if strStartsWith tl.balance.source "file-" then tl.dateOpened.value else some now
  let daysSinceReported : ℤ :=
    match reportedDate with
    | some d => diffInDays now d
    | none => 0
  let stalenessPenalty : ℚ :=
    if 120 < daysSinceReported then -30 else if 90 < daysSinceReported then -15 else 0
  let fire1 := decide (tl.balance.value = JsVal.num 0) && jsValGtZero tl.pastDueAmount.value
  let conf1 := max 0 (((jsRound ((tl.balance.confidence + tl.pastDueAmount.confidence) / 2) : ℤ) : ℚ) + stalenessPenalty)
  let r1 : List Violation × ℕ :=
    if fire1 then
      ([createViolation ids k "METRO2-BAL-PAST-DUE" Severity.HIGH
          ("Tradeline reports $0 balance but has a past due amount of $" ++
            jsValStr tl.pastDueAmount.value ++ ".")
          "FCRA § 623(a)" "Delete past due amount or correct balance." tl.id conf1],
        k + 1)
    else ([], k)
  let fire2 := decide (tl.dateClosed.value ≠ none) && decide (tl.statusCode.value ≠ "11") &&
      (decide (tl.statusCode.value = "71") || decide (tl.statusCode.value = "78") ||
       decide (tl.statusCode.value = "80"))
  let conf2 := max 0 (((jsRound ((tl.dateClosed.confidence + tl.statusCode.confidence) / 2) : ℤ) : ℚ) + stalenessPenalty)
  let r2 : List Violation × ℕ :=
    if fire2 then
      ([createViolation ids r1.2 "METRO2-CLOSED-DEROG" Severity.MEDIUM
          "Account reports derogatory status on a closed account."
          "FCRA § 623" "Update status to reflect accurate terminal state." tl.id conf2],
        r1.2 + 1)
    else ([], r1.2)
  let fire3 := decide (tl.statusCode.value = "97") &&
      (strContains (strToLower tl.status.value) "current" ||
       decide (strToLower tl.status.value = "ok"))
  let conf3 := max 0 (((jsRound ((tl.statusCode.confidence + tl.status.confidence) / 2) : ℤ) : ℚ) + stalenessPenalty)
  let r3 : List Violation × ℕ :=
    if fire3 then
      ([createViolation ids r2.2 "METRO2-CO-INCONSISTENT" Severity.HIGH
          "Account reported as Charge-Off but reflects a \"Current\" or \"OK\" status."
          "FCRA § 623(a)" "Correct status to reflect actual account state." tl.id conf3],
        r2.2 + 1)
    else ([], r2.2)
  let fire4 := decide (tl.dateOpened.value = none)
  let conf4 := max 0 (50 + stalenessPenalty)
  let r4 : List Violation × ℕ :=
    if fire4 then
      ([createViolation ids r3.2 "FORMAT-MISSING-OPEN-DATE" Severity.LOW
          "Tradeline is missing an Open Date."
          "Metro 2 Standard" "Provide accurate date opened." tl.id conf4],
        r3.2 + 1)
    else ([], r3.2)
  (r1.1 ++ r2.1 ++ r3.1 ++ r4.1, r4.2)

/-- The tradeline loop of scanProfile: a targeted re-scan keeps existing
violations of out-of-scope tradelines, others are re-evaluated and their
violations list replaced. -/
def scanProfileGo (now : ℚ) (ids : IdGen) (targets : Option (List String)) :
    List Tradeline → ℕ → List Tradeline × List Violation × ℕ
  | [], k => ([], [], k)
  | tl :: rest, k =>
    if (match targets with
        | some ts => decide (tl.id ∉ ts)
        | none => false) then
      let r := scanProfileGo now ids targets rest k
      (tl :: r.1, tl.violations ++ r.2.1, r.2.2)
    else
      let s := scanTradeline now ids k tl
      let r := scanProfileGo now ids targets rest s.2
      ({ tl with violations := s.1 } :: r.1, s.1 ++ r.2.1, r.2.2)

/-- ViolationEngine.scanProfile: scans (or selectively re-scans) the
tradelines and replaces profile.activeViolations. -/
def scanProfile (now : ℚ) (ids : IdGen) (k : ℕ) (profile : UserCreditProfile)
    (targets : Option (List String)) : UserCreditProfile × List Violation × ℕ :=
  let r := scanProfileGo now ids targets profile.tradelines k
  ({ profile with tradelines := r.1, activeViolations := r.2.1 }, r.2.1, r.2.2)

/-! ## OrchestrationEngine (src/unnamed/part_008) -/

/-- The finding object generatePlanFromStrategies builds for a step. -/
structure PlanFinding where
  rule_id : String
  severity : ℚ
  confidence : ℚ
  description : String
  statute : String
  remedy : String
  estimated_value : ℚ
  related_entity_id : String
deriving DecidableEq

/-- A skill execution context. -/
structure SkillContext where
  caseId : String
  finding : PlanFinding
  metadata : Option StrategyMetadata
deriving DecidableEq

/-- A step of an execution plan. -/
structure PlanStep where
  id : String
  skillId : String
  status : String
  context : SkillContext
  scheduledAt : ℚ
deriving DecidableEq

/-- An execution plan. -/
structure ExecutionPlan where
  id : String
  caseId : String
  status : String
  steps : List PlanStep
  ledger : List String
  createdAt : ℚ
deriving DecidableEq

/-- The ids of the four skills registered in the OrchestrationEngine
constructor. -/
def skillRegistryIds : List String :=
  ["GENERATE_DISPUTE_LETTER_V1", "SUBMIT_CFPB_COMPLAINT_V1",
   "CREDIT_KARMA_SYNC_V1", "MYFICO_SYNC_V1"]

/-- String rendering of a strategy type (the TS union labels). -/
def sTypeStr : SType → String
  | SType.DISPUTE => "DISPUTE"
  | SType.BLOCK_605B => "605B_BLOCK"
  | SType.CFPB_COMPLAINT => "CFPB_COMPLAINT"
  | SType.ESCALATION => "ESCALATION"
  | SType.MONITOR => "MONITOR"

/-- The skillIdMap lookup of generatePlanFromStrategies: only DISPUTE and
CFPB_COMPLAINT have mapped skill ids; any other strategy type looks up to
undefined. -/
def skillIdMap : SType → Option String
  | SType.DISPUTE => some "GENERATE_DISPUTE_LETTER_V1"
  | SType.CFPB_COMPLAINT => some "SUBMIT_CFPB_COMPLAINT_V1"
  | _ => none

/-- The step loop of generatePlanFromStrategies: a strategy contributes a
step only when its type maps to a skill id that is registered. -/
def planStepsFromStrategies (now : ℚ) (ids : IdGen) (uid : String) :
    List EnforcementStrategy → ℕ → List PlanStep × ℕ
  | [], k => ([], k)
  | s :: rest, k =>
    match skillIdMap s.type with
    | some skillId =>
      if skillId ∈ skillRegistryIds then
        let step : PlanStep :=
          { id := ids k
            skillId := skillId
            status := "QUEUED"
            context :=
              { caseId := uid
                finding :=
                  { rule_id := "STRATEGY-" ++ sTypeStr s.type
                    severity := s.removalProbability
                    confidence := 100
                    description := s.recommendedAction
                    statute :=
                      match s.declarativeMetadata.statute with
                      | some st => st
                      | none => "Multiple Statutes"
                    remedy := s.recommendedAction
                    estimated_value := 0
                    related_entity_id := s.targetEntityId }
                metadata := some s.declarativeMetadata }
            scheduledAt := now }
        let r := planStepsFromStrategies now ids uid rest (k + 1)
        (step :: r.1, r.2)
      else planStepsFromStrategies now ids uid rest k
    | none => planStepsFromStrategies now ids uid rest k

/-- OrchestrationEngine.generatePlanFromStrategies: seeds an execution
plan from the profile's active strategies. -/
def generatePlanFromStrategies (now : ℚ) (ids : IdGen) (k : ℕ)
    (profile : UserCreditProfile) : ExecutionPlan × ℕ :=
  let r := planStepsFromStrategies now ids profile.userId profile.activeStrategies k
  ({ id := ids r.2
     caseId := profile.userId
     status := "PENDING"
     steps := r.1
     ledger := []
     createdAt := now }, r.2 + 1)

/-! ## IntelligenceLoop (src/src/engine/intelligence_loop.ts) -/

/-- Lexicographic comparison of character lists by code point, the order
JavaScript's default Array.prototype.sort uses on our ASCII ids. -/
def charListLe : List Char → List Char → Bool
  | [], _ => true
  | _ :: _, [] => false
  | a :: as, b :: bs =>
    if a.val < b.val then true
    else if b.val < a.val then false
    else charListLe as bs

/-- String comparison for the fingerprint sorts. -/
def strLe (a b : String) : Bool := charListLe a.toList b.toList

/-- Insertion into a sorted string list. -/
def insertSorted (x : String) : List String → List String
  | [] => [x]
  | y :: ys => if strLe x y then x :: y :: ys else y :: insertSorted x ys

/-- Sorting a string list (the canonical sorted order JavaScript's
default sort produces). -/
def sortStrings (l : List String) : List String := l.foldr insertSorted []

/-- One strategy's fingerprint tuple: type, target entity, sorted
violation ids. -/
def strategyFingerprintPart (s : EnforcementStrategy) : String :=
  sTypeStr s.type ++ ":" ++ s.targetEntityId ++ ":" ++
    String.intercalate "," (sortStrings s.violationIds)

/-- IntelligenceLoop.generatePlanHash: the fingerprint string over the
sorted strategy tuples.  The md5 digest is modelled injectively by the
fingerprint string itself. -/
def generatePlanHash (profile : UserCreditProfile) : String :=
  String.intercalate "|" (sortStrings (profile.activeStrategies.map strategyFingerprintPart))

/-- The observable result of one executeLifecycle run. -/
structure LifecycleResult where
  profile : UserCreditProfile
  lastPlanHashes : String → Option String
  seeded : Bool
  plan : Option ExecutionPlan
  events : List String
  nextId : ℕ

/-- IntelligenceLoop.executeLifecycle: violation scan, strategy
generation, idempotency check against the stored plan hash, then either skip
(emitting completion only) or persist, seed an orchestration plan, record
the hash and emit completion.  Persistence (CaseMemory.saveProfile) is an
external collaborator modelled as always succeeding. -/
def executeLifecycle (h : ExecutionHistory) (now : ℚ) (ids : IdGen) (k : ℕ)
    (lastPlanHashes : String → Option String) (profile : UserCreditProfile)
    (targets : Option (List String)) : LifecycleResult :=
  let s := scanProfile now ids k profile targets
  let g := generateStrategies h now ids s.2.2 s.1
  let p2 := g.1
  let currentPlanHash := generatePlanHash p2
  if lastPlanHashes p2.userId = some currentPlanHash then
    { profile := p2
      lastPlanHashes := lastPlanHashes
      seeded := false
      plan := none
      events := ["COMPLETE"]
      nextId := g.2.2 }
  else
    let pl := generatePlanFromStrategies now ids g.2.2 p2
    { profile := p2
      lastPlanHashes := fun u => if u = p2.userId then some currentPlanHash else lastPlanHashes u
      seeded := true
      plan := some pl.1
      events := ["COMPLETE"]
      nextId := pl.2 }

/-! ## Entity resolution (src/unnamed/part_009) -/

/-- The creditor-name suffixes stripped by normalizeCreditorName's
regular expression. -/
def creditorSuffixes : List String :=
  ["BANK", "NA", "NATIONAL ASSOCIATION", "FSB", "INC", "LLC", "CORPORATION", "CORP"]

/-- Strips one trailing " SUFFIX" (the anchored leftmost regex match is
the longest matching suffix). -/
def stripCreditorSuffix (s : String) : String :=
  let cands := creditorSuffixes.filter fun a => strEndsWith s (" " ++ a)
  let best := cands.foldl (fun acc a => if acc.length < a.length then a else acc) ""
  if best = "" then s else (s.toList.take (s.length - (best.length + 1))).asString

/-- The alias lookup table of normalizeCreditorName. -/
def creditorAlias (s : String) : Option String :=
  if s = "JPM CHASE" then some "CHASE"
  else if s = "JPMORGAN CHASE" then some "CHASE"
  else if s = "CHASE BANK" then some "CHASE"
  else if s = "AMEX" then some "AMERICAN EXPRESS"
  else if s = "CAP1" then some "CAPITAL ONE"
  else if s = "CAPITALONE" then some "CAPITAL ONE"
  else if s = "SYNCB" then some "SYNCHRONY BANK"
  else if s = "CBNA" then some "CITIBANK"
  else if s = "CITI" then some "CITIBANK"
  else none

/-- normalizeCreditorName: uppercase, strip a trailing corporate suffix,
trim, then alias lookup. -/
def normalizeCreditorName (name : String) : String :=
  let cleanName := strTrim (stripCreditorSuffix (strToUpper name))
  match creditorAlias cleanName with
  | some v => v
  | none => cleanName

/-- JavaScript s.replace(/\*/g, '') on an account number. -/
def stripMask (s : String) : String := (s.toList.filter (fun c => c ≠ '*')).asString

/-- isDuplicate: partial account-number match, or same normalized
creditor + same open date + balances within $50. -/
def isDuplicate (t1 t2 : Tradeline) : Bool :=
  let acc1 := stripMask t1.accountNumber.originalValue
  let acc2 := stripMask t2.accountNumber.originalValue
  if decide (acc1 ≠ "") && decide (acc2 ≠ "") &&
      (strContains acc1 acc2 || strContains acc2 acc1) && decide (4 ≤ acc1.length) then
    true
  else if decide (normalizeCreditorName t1.creditor.value = normalizeCreditorName t2.creditor.value) &&
      decide (t1.dateOpened.value = t2.dateOpened.value) then
    jsAbsDiffLt t1.balance.value t2.balance.value 50
  else false

/-- The provenance aggregation of the merge: append the incoming creditor
source when not already a substring of the kept one. -/
def mergeSource (e1 tl : Tradeline) : Tradeline :=
  if strContains e1.creditor.source tl.creditor.source then e1
  else
    { e1 with creditor := { e1.creditor with source := e1.creditor.source ++ ", " ++ tl.creditor.source } }

/-- The merge mutation applied to an already-kept record when a later
duplicate arrives: replace the balance only on strictly higher incoming
confidence; append the incoming creditor source when not already a
substring. -/
def mergeInto (existing tl : Tradeline) : Tradeline :=
  mergeSource
    (if existing.balance.confidence < tl.balance.confidence then
      { existing with balance := tl.balance }
    else existing) tl

/-- The accumulator loop of resolveTradelineDuplicates. -/
def resolveAux (resolved : List Tradeline) : List Tradeline → List Tradeline
  | [] => resolved
  | tl :: rest =>
    match resolved.findIdx? (fun r => isDuplicate r tl) with
    | some i => resolveAux (resolved.set i (mergeInto (resolved.getD i tl) tl)) rest
    | none => resolveAux (resolved ++ [tl]) rest

/-- resolveTradelineDuplicates: folds the input, merging each record into
the first already-kept duplicate, otherwise keeping it. -/
def resolveTradelineDuplicates (tradelines : List Tradeline) : List Tradeline :=
  resolveAux [] tradelines

/-! ## Normalization (src/unnamed/part_005) -/

/-- calculateConfidenceDecay: no decay for non-positive age; otherwise
5% of the initial confidence per elapsed 30-day period, floored at 0 and
rounded.  The float literal 0.05 is modelled as 1/20. -/
def calculateConfidenceDecay (initialConfidence : ℚ) (now reported : ℚ) : ℚ :=
  let daysSince := diffInDays now reported
  if daysSince ≤ 0 then initialConfidence
  else
    let decimalDecay : ℚ := ((Int.fdiv daysSince 30 : ℤ) : ℚ) * (1 / 20)
    let finalConfidence := max 0 (initialConfidence * (1 - decimalDecay))
    ((jsRound finalConfidence : ℤ) : ℚ)

/-- resolveFieldConflict: freeze to the CONFLICT sentinel when two
high-confidence readings disagree, else keep the higher-confidence one. -/
def resolveFieldConflict (current incoming : NormalizedField JsVal) : NormalizedField JsVal :=
  if 80 ≤ current.confidence ∧ 80 ≤ incoming.confidence ∧ current.value ≠ incoming.value then
    { incoming with
        value := JsVal.str "CONFLICT"
        originalValue := "CONFLICT"
        confidence := max current.confidence incoming.confidence }
  else if current.confidence < incoming.confidence then incoming
  else current

/-! ## Auxiliary definitions used in the statements -/

/-- The entries whose outcome is not SYSTEM_ERROR (the only entries the
cooldown and adjustment logic can observe). -/
def nonSystemError (e : HistEntry) : Bool := decide (e.outcome ≠ Outcome.SYSTEM_ERROR)

/-- The base removal probability of each strategy tier. -/
def baseProbability : SType → ℚ
  | SType.CFPB_COMPLAINT => 85
  | SType.ESCALATION => 70
  | SType.DISPUTE => 55
  | _ => 0

/-! ## Concrete fixtures for the witness instances -/

/-- A deterministic uuid supply. -/
def genT : IdGen := fun n => "u" ++ toString n

/-- The empty execution history. -/
def hEmpty : ExecutionHistory := fun _ => []

/-- A concrete evaluation instant (2026-01-01T00:00:00Z in epoch ms). -/
def nowT : ℚ := 1767225600000

/-- A string field at confidence 100. -/
def nfS (v : String) : NormalizedField String := ⟨v, v, 100, "cka-1"⟩

/-- A date field at confidence 100. -/
def nfD (v : Option ℚ) : NormalizedField (Option ℚ) := ⟨v, "", 100, "cka-1"⟩

/-- A numeric field at confidence 100. -/
def nfN (q : ℚ) : NormalizedField JsVal := ⟨JsVal.num q, "", 100, "cka-1"⟩

/-- A tradeline with the balance-vs-past-due contradiction (balance 0,
past due 500, both at confidence 100, fresh reporting). -/
def tlContradiction : Tradeline :=
  { id := "TL-1", creditor := nfS "CHASE", accountNumber := nfS "1234",
    accountType := nfS "CC", dateOpened := nfD (some 1000),
    dateLastActive := nfD none, dateClosed := nfD none,
    balance := nfN 0, creditLimit := nfN 1000, pastDueAmount := nfN 500,
    status := nfS "Late", statusCode := nfS "11",
    paymentHistory := [], isDisputed := false, remarks := [], violations := [] }

/-- The lifecycle fixture profile: one contradictory tradeline. -/
def profLifecycle : UserCreditProfile :=
  { userId := "S1", tradelines := [tlContradiction],
    activeViolations := [], activeStrategies := [] }

/-- First lifecycle pass on the fixture profile. -/
def lcRun1 : LifecycleResult :=
  executeLifecycle hEmpty nowT genT 0 (fun _ => none) profLifecycle none

/-- Second lifecycle pass, fed the state the first pass produced, with no
intervening profile change and no new outcomes recorded. -/
def lcRun2 : LifecycleResult :=
  executeLifecycle hEmpty nowT genT lcRun1.nextId lcRun1.lastPlanHashes lcRun1.profile none

/-- A MEDIUM-severity violation at confidence 100. -/
def vMed : Violation :=
  { id := "V1", rule_id := "R1", severity := Severity.MEDIUM,
    description := "d", statute := "FCRA § 611", remedy := "r",
    confidence := 100, relatedEntityId := "E1" }

/-- A HIGH-severity violation at confidence 100. -/
def vHighT : Violation :=
  { id := "V1", rule_id := "METRO2-BAL-PAST-DUE", severity := Severity.HIGH,
    description := "d", statute := "FCRA § 623(a)", remedy := "r",
    confidence := 100, relatedEntityId := "E1" }

/-- A profile carrying only the MEDIUM violation. -/
def profMed : UserCreditProfile :=
  { userId := "S1", tradelines := [], activeViolations := [vMed], activeStrategies := [] }

/-- A profile carrying only the HIGH violation. -/
def profHigh : UserCreditProfile :=
  { userId := "S1", tradelines := [], activeViolations := [vHighT], activeStrategies := [] }

/-- A history with one SYSTEM_ERROR entry for entity E1. -/
def hSE : ExecutionHistory :=
  fun e => if e = "E1" then [⟨"R1", "DISPUTE", Outcome.SYSTEM_ERROR, 0⟩] else []

/-- A history with one LEGAL_REJECTION for E1, 200 days before nowT. -/
def hC4 : ExecutionHistory :=
  fun e => if e = "E1" then [⟨"R9", "DISPUTE", Outcome.LEGAL_REJECTION, nowT - 200 * msPerDay⟩] else []

/-- The strategy deriveStrategy produces for vMed under hC4 at nowT:
drift -15, recovery +5, adjustment -10, probability 45. -/
def c4s : EnforcementStrategy :=
  { id := "u0", type := SType.DISPUTE, targetEntityId := "E1",
    violationIds := ["V1"], removalProbability := 45,
    litigationRisk := Risk.LOW,
    recommendedAction := "Standard Bureau Dispute Letter",
    declarativeMetadata :=
      { reason := "Reporting inconsistency requires verification."
        statute := none, errorCount := none
        driftApplied := -15, recoveryApplied := 5 } }

/-- The strategy deriveStrategy produces for vHighT under the empty
history: a CFPB complaint at probability 85. -/
def c5s : EnforcementStrategy :=
  { id := "u0", type := SType.CFPB_COMPLAINT, targetEntityId := "E1",
    violationIds := ["V1"], removalProbability := 85,
    litigationRisk := Risk.HIGH,
    recommendedAction := "Official CFPB Portal Submission",
    declarativeMetadata :=
      { reason := "Critical accuracy failure detected (METRO2-BAL-PAST-DUE)."
        statute := some "FCRA § 623(a)", errorCount := none
        driftApplied := 0, recoveryApplied := 0 } }

/-- A balance field frozen at the CONFLICT sentinel with confidence 95,
as resolveFieldConflict produces it from two high-trust disagreeing
readings. -/
def balConflict : NormalizedField JsVal :=
  resolveFieldConflict ⟨JsVal.num 100, "100", 95, "src-a"⟩ ⟨JsVal.num 900, "900", 90, "src-b"⟩

/-- A tradeline (entity E1) whose balance is conflict-frozen. -/
def tlConflict : Tradeline :=
  { id := "E1", creditor := nfS "CHASE", accountNumber := nfS "1234",
    accountType := nfS "CC", dateOpened := nfD (some 1000),
    dateLastActive := nfD none, dateClosed := nfD none,
    balance := balConflict, creditLimit := nfN 1000, pastDueAmount := nfN 500,
    status := nfS "Late", statusCode := nfS "11",
    paymentHistory := [], isDisputed := false, remarks := [], violations := [] }

/-- A profile whose only entity is conflict-frozen yet has a HIGH
violation above the confidence gate. -/
def profConflict : UserCreditProfile :=
  { userId := "S1", tradelines := [tlConflict],
    activeViolations := [vHighT], activeStrategies := [] }

/-- First-seen tradeline for the entity-resolution fixtures. -/
def tuA : Tradeline :=
  { id := "T-A", creditor := ⟨"CHASE", "CHASE", 80, "src-a"⟩,
    accountNumber := ⟨"12345678", "12345678", 80, "src-a"⟩,
    accountType := nfS "CC", dateOpened := nfD (some 1000),
    dateLastActive := nfD none, dateClosed := nfD none,
    balance := ⟨JsVal.num 100, "100", 50, "src-a"⟩,
    creditLimit := nfN 1000,
    pastDueAmount := ⟨JsVal.num 0, "0", 10, "src-a"⟩,
    status := nfS "Current", statusCode := nfS "11",
    paymentHistory := [], isDisputed := false, remarks := [], violations := [] }

/-- A later duplicate of tuA (same account number) whose pastDueAmount
carries strictly higher confidence than tuA's. -/
def tuB : Tradeline :=
  { id := "T-B", creditor := ⟨"CHASE", "CHASE", 90, "src-b"⟩,
    accountNumber := ⟨"12345678", "12345678", 90, "src-b"⟩,
    accountType := nfS "CC", dateOpened := nfD (some 1000),
    dateLastActive := nfD none, dateClosed := nfD none,
    balance := ⟨JsVal.num 120, "120", 40, "src-b"⟩,
    creditLimit := nfN 1000,
    pastDueAmount := ⟨JsVal.num 999, "999", 95, "src-b"⟩,
    status := nfS "Current", statusCode := nfS "11",
    paymentHistory := [], isDisputed := false, remarks := [], violations := [] }

/-- An ESCALATION strategy (tier 2 of the Strategy Engine). -/
def escS : EnforcementStrategy :=
  { id := "u0", type := SType.ESCALATION, targetEntityId := "E1",
    violationIds := ["V1", "V2", "V3"], removalProbability := 70,
    litigationRisk := Risk.MEDIUM,
    recommendedAction := "Direct Furnisher Escalation",
    declarativeMetadata :=
      { reason := "Multiple systemic reporting errors suggest process failure."
        statute := none, errorCount := some 3
        driftApplied := 0, recoveryApplied := 0 } }

/-- A profile whose active strategies are all ESCALATION. -/
def profEsc : UserCreditProfile :=
  { userId := "S1", tradelines := [], activeViolations := [],
    activeStrategies := [escS] }

/-! ## Helper lemmas -/

theorem any_eq_any_filter {α : Type} {p q : α → Bool}
    (hpq : ∀ a, p a = true → q a = true) :
    ∀ l : List α, l.any p = (l.filter q).any p := by
  intro l
  induction l with
  | nil => rfl
  | cons x xs ih =>
    cases hq : q x with
    | true => simp [List.filter_cons, hq, List.any_cons, ih]
    | false =>
      have hp : p x = false := by
        cases hpx : p x
        · rfl
        · rw [hpq x hpx] at hq; exact absurd hq (by decide)
      simp [List.filter_cons, hq, List.any_cons, hp, ih]

theorem filter_eq_filter_filter {α : Type} {p q : α → Bool}
    (hpq : ∀ a, p a = true → q a = true) :
    ∀ l : List α, l.filter p = (l.filter q).filter p := by
  intro l
  induction l with
  | nil => rfl
  | cons x xs ih =>
    cases hq : q x with
    | true => simp [List.filter_cons, hq, ih]
    | false =>
      have hp : p x = false := by
        cases hpx : p x
        · rfl
        · rw [hpq x hpx] at hq; exact absurd hq (by decide)
      simp [List.filter_cons, hq, hp, ih]

theorem legalRejection_imp_nonSystemError :
    ∀ e : HistEntry, decide (e.outcome = Outcome.LEGAL_REJECTION) = true →
      nonSystemError e = true := by
  intro e he
  have h1 := of_decide_eq_true he
  unfold nonSystemError
  rw [h1]
  decide

theorem legalRejections_congr {l l' : List HistEntry}
    (hf : l.filter nonSystemError = l'.filter nonSystemError) :
    legalRejections l = legalRejections l' := by
  unfold legalRejections
  rw [filter_eq_filter_filter legalRejection_imp_nonSystemError l, hf,
    ← filter_eq_filter_filter legalRejection_imp_nonSystemError l']

theorem isInCooldown_congr {h h' : ExecutionHistory} {now : ℚ}
    (hf : ∀ e, (h e).filter nonSystemError = (h' e).filter nonSystemError) :
    ∀ e r ty, isInCooldown h now e r ty = isInCooldown h' now e r ty := by
  intro e r ty
  unfold isInCooldown
  have himp : ∀ en : HistEntry,
      decide (en.ruleId = r ∧ en.type = ty ∧ en.outcome ≠ Outcome.SYSTEM_ERROR ∧
        (now - en.date) / msPerDay < COOLDOWN_DAYS) = true →
      nonSystemError en = true := by
    intro en hen
    have h1 := of_decide_eq_true hen
    exact decide_eq_true h1.2.2.1
  rw [any_eq_any_filter himp (h e), hf e, ← any_eq_any_filter himp (h' e)]

theorem driftAdjustment_congr {l l' : List HistEntry}
    (hf : l.filter nonSystemError = l'.filter nonSystemError) :
    driftAdjustment l = driftAdjustment l' := by
  unfold driftAdjustment
  rw [legalRejections_congr hf]

theorem recoveryAdjustment_congr {l l' : List HistEntry} {now : ℚ}
    (hf : l.filter nonSystemError = l'.filter nonSystemError) :
    recoveryAdjustment now l = recoveryAdjustment now l' := by
  unfold recoveryAdjustment
  rw [legalRejections_congr hf]

theorem totalAdjustment_congr {l l' : List HistEntry} {now : ℚ}
    (hf : l.filter nonSystemError = l'.filter nonSystemError) :
    totalAdjustment now l = totalAdjustment now l' := by
  unfold totalAdjustment
  rw [driftAdjustment_congr hf, recoveryAdjustment_congr hf]

theorem actionableOf_congr {h h' : ExecutionHistory} {now : ℚ}
    (hf : ∀ e, (h e).filter nonSystemError = (h' e).filter nonSystemError) :
    ∀ e vs, actionableOf h now e vs = actionableOf h' now e vs := by
  intro e vs
  unfold actionableOf
  apply List.filter_congr
  intro v _
  rw [isInCooldown_congr hf e v.rule_id "DISPUTE",
    isInCooldown_congr hf e v.rule_id "CFPB_COMPLAINT"]

theorem deriveStrategy_congr {h h' : ExecutionHistory} {now : ℚ}
    (hf : ∀ e, (h e).filter nonSystemError = (h' e).filter nonSystemError) :
    ∀ ids k e vs, deriveStrategy h now ids k e vs = deriveStrategy h' now ids k e vs := by
  intro ids k e vs
  unfold deriveStrategy
  rw [actionableOf_congr hf e vs, driftAdjustment_congr (hf e),
    recoveryAdjustment_congr (hf e), totalAdjustment_congr (hf e)]

theorem generateStrategiesGo_congr {h h' : ExecutionHistory} {now : ℚ}
    (hf : ∀ e, (h e).filter nonSystemError = (h' e).filter nonSystemError)
    (ids : IdGen) (p : UserCreditProfile) (valid : List Violation) :
    ∀ es k, generateStrategiesGo h now ids p valid es k =
      generateStrategiesGo h' now ids p valid es k := by
  intro es
  induction es with
  | nil => intro k; rfl
  | cons e rest ih =>
    intro k
    unfold generateStrategiesGo
    rw [deriveStrategy_congr hf ids k e (violationsFor valid e)]
    cases deriveStrategy h' now ids k e (violationsFor valid e) <;>
      simp only [ih]

/-- Claim C3: adding SYSTEM_ERROR entries anywhere in the execution
history (formally: any two histories whose non-SYSTEM_ERROR entries
coincide per entity) changes neither any cooldown decision nor anything
in the output of generateStrategies — in particular neither the drift
penalty, the recovery credit, nor any strategy's removalProbability —
and never establishes a suppression window. -/
theorem systemError_noninterference :
    ∀ (h h' : ExecutionHistory) (now : ℚ) (ids : IdGen) (k : ℕ)
      (profile : UserCreditProfile),
    (∀ e, (h e).filter nonSystemError = (h' e).filter nonSystemError) →
    (∀ e r ty, isInCooldown h now e r ty = isInCooldown h' now e r ty) ∧
    generateStrategies h now ids k profile = generateStrategies h' now ids k profile := by
  intro h h' now ids k profile hf
  refine ⟨isInCooldown_congr hf, ?_⟩
  unfold generateStrategies
  rw [generateStrategiesGo_congr hf ids profile (validViolations profile)
    (entityOrder (validViolations profile)) k]

section DecideOnRationals

attribute [local semireducible] Rat.add Rat.sub Rat.mul Rat.inv Rat.ofScientific

/-- Witness for C3: concretely, a SYSTEM_ERROR entry recorded for entity
E1 leaves both the cooldown decision and the whole generateStrategies
output unchanged. -/
theorem systemError_noninterference_witness :
    isInCooldown hEmpty nowT "E1" "R1" "DISPUTE" = isInCooldown hSE nowT "E1" "R1" "DISPUTE" ∧
    generateStrategies hEmpty nowT genT 0 profMed = generateStrategies hSE nowT genT 0 profMed := by
  have hf : ∀ e, (hEmpty e).filter nonSystemError = (hSE e).filter nonSystemError := by
    intro e
    by_cases he : e = "E1"
    · subst he; rfl
    · simp [hEmpty, hSE, he]
  exact ⟨(systemError_noninterference hEmpty hSE nowT genT 0 profMed hf).1 "E1" "R1" "DISPUTE",
    (systemError_noninterference hEmpty hSE nowT genT 0 profMed hf).2⟩

end DecideOnRationals

/-- Claim C2 as amended: (1) recording a non-SYSTEM_ERROR outcome for
(entity, rule, type) suppresses every violation with that rule from
action-selection for 30 days — but only when the recorded type is
DISPUTE or CFPB_COMPLAINT, the two types deriveStrategy queries;
(2) a SYSTEM_ERROR outcome establishes no suppression; (3) when every
violation of an entity is in cooldown, no strategy is produced. -/
theorem cooldown_amended :
    (∀ (h : ExecutionHistory) (t now : ℚ) (e r ty : String) (o : Outcome)
       (vs : List Violation) (v : Violation),
      o ≠ Outcome.SYSTEM_ERROR → (now - t) / msPerDay < COOLDOWN_DAYS →
      (ty = "DISPUTE" ∨ ty = "CFPB_COMPLAINT") → v.rule_id = r →
      v ∉ actionableOf (recordOutcome h e r ty o t) now e vs) ∧
    (∀ (h : ExecutionHistory) (t now : ℚ) (e r ty : String) (vs : List Violation),
      actionableOf (recordOutcome h e r ty Outcome.SYSTEM_ERROR t) now e vs =
        actionableOf h now e vs) ∧
    (∀ (h : ExecutionHistory) (now : ℚ) (ids : IdGen) (k : ℕ) (e : String)
       (vs : List Violation),
      actionableOf h now e vs = [] → deriveStrategy h now ids k e vs = none) := by
  refine ⟨?_, ?_, ?_⟩
  · intro h t now e r ty o vs v ho hdays hty hvr hmem
    unfold actionableOf at hmem
    rw [List.mem_filter] at hmem
    obtain ⟨-, hpred⟩ := hmem
    rw [Bool.and_eq_true, Bool.not_eq_true', Bool.not_eq_true'] at hpred
    obtain ⟨hcd, hcc⟩ := hpred
    have hcool : isInCooldown (recordOutcome h e r ty o t) now e v.rule_id ty = true := by
      unfold isInCooldown recordOutcome
      simp only [eq_self_iff_true, if_true, List.any_append, Bool.or_eq_true]
      right
      simp only [List.any_cons, List.any_nil, Bool.or_false]
      exact decide_eq_true ⟨hvr.symm, trivial, ho, hdays⟩
    rcases hty with h1 | h1 <;> subst h1
    · rw [hcool] at hcd; exact absurd hcd (by decide)
    · rw [hcool] at hcc; exact absurd hcc (by decide)
  · intro h t now e r ty vs
    unfold actionableOf
    apply List.filter_congr
    intro v _
    have hc : ∀ ty2, isInCooldown (recordOutcome h e r ty Outcome.SYSTEM_ERROR t) now e v.rule_id ty2 =
        isInCooldown h now e v.rule_id ty2 := by
      intro ty2
      unfold isInCooldown recordOutcome
      simp only [eq_self_iff_true, if_true, List.any_append, List.any_cons, List.any_nil,
        Bool.or_false]
      have hfalse : decide ((⟨r, ty, Outcome.SYSTEM_ERROR, t⟩ : HistEntry).ruleId = v.rule_id ∧
          (⟨r, ty, Outcome.SYSTEM_ERROR, t⟩ : HistEntry).type = ty2 ∧
          (⟨r, ty, Outcome.SYSTEM_ERROR, t⟩ : HistEntry).outcome ≠ Outcome.SYSTEM_ERROR ∧
          (now - (⟨r, ty, Outcome.SYSTEM_ERROR, t⟩ : HistEntry).date) / msPerDay < COOLDOWN_DAYS) = false := by
        apply decide_eq_false
        intro hcon
        exact hcon.2.2.1 rfl
      rw [hfalse, Bool.or_false]
    rw [hc "DISPUTE", hc "CFPB_COMPLAINT"]
  · intro h now ids k e vs hA
    unfold deriveStrategy
    rw [hA]
    rfl

section DecideOnRationalsB

attribute [local semireducible] Rat.add Rat.sub Rat.mul Rat.inv Rat.ofScientific

/-- Counterexample to C2 as stated: an ESCALATION-typed outcome with a
substantive (SUCCESS) result, recorded one day ago for exactly the
(entity, rule, type) triple, suppresses nothing — the violation with
that rule stays in action-selection and generateStrategies still returns
a strategy built on it. -/
theorem cooldown_type_counterexample :
    Outcome.SUCCESS ≠ Outcome.SYSTEM_ERROR ∧
    (nowT - (nowT - msPerDay)) / msPerDay < COOLDOWN_DAYS ∧
    actionableOf (recordOutcome hEmpty "E1" "R1" "ESCALATION" Outcome.SUCCESS (nowT - msPerDay))
      nowT "E1" [vMed] = [vMed] ∧
    ((generateStrategies (recordOutcome hEmpty "E1" "R1" "ESCALATION" Outcome.SUCCESS (nowT - msPerDay))
      nowT genT 0 profMed).2.1.map (fun s => s.violationIds)) = [["V1"]] := by
  decide

/-- Witness for the amended C2 at concrete inputs: a DISPUTE-typed
SUCCESS outcome one day old suppresses the violation; the same entry
with a SYSTEM_ERROR outcome suppresses nothing; and with every violation
in cooldown deriveStrategy returns none. -/
theorem cooldown_amended_witness :
    vMed ∉ actionableOf (recordOutcome hEmpty "E1" "R1" "DISPUTE" Outcome.SUCCESS (nowT - msPerDay))
      nowT "E1" [vMed] ∧
    actionableOf (recordOutcome hEmpty "E1" "R1" "DISPUTE" Outcome.SYSTEM_ERROR (nowT - msPerDay))
      nowT "E1" [vMed] = actionableOf hEmpty nowT "E1" [vMed] ∧
    deriveStrategy (recordOutcome hEmpty "E1" "R1" "DISPUTE" Outcome.SUCCESS (nowT - msPerDay))
      nowT genT 0 "E1" [vMed] = none := by
  refine ⟨?_, ?_, ?_⟩
  · exact cooldown_amended.1 hEmpty (nowT - msPerDay) nowT "E1" "R1" "DISPUTE" Outcome.SUCCESS
      [vMed] vMed (by decide) (by decide) (Or.inl rfl) rfl
  · exact cooldown_amended.2.1 hEmpty (nowT - msPerDay) nowT "E1" "R1" "DISPUTE" [vMed]
  · exact cooldown_amended.2.2 _ nowT genT 0 "E1" [vMed] (by decide)

end DecideOnRationalsB

theorem jsFloor_eq_floor (q : ℚ) : jsFloor q = ⌊q⌋ := by
  unfold jsFloor
  rw [Rat.floor_def]
  exact Int.fdiv_eq_ediv q.num (Int.natCast_nonneg q.den)

theorem recoveryAdjustment_eq_max? (now : ℚ) (l : List HistEntry) :
    recoveryAdjustment now l =
      (match ((legalRejections l).map (fun en => en.date)).max? with
       | none => 0
       | some d => ((⌊((now - d) / msPerDay) / 180⌋ : ℤ) : ℚ) * 5) := by
  unfold recoveryAdjustment
  cases hL : legalRejections l with
  | nil => simp [hL]
  | cons f rest =>
    simp only [hL, List.map_cons, List.max?_cons']
    rw [List.foldl_map, jsFloor_eq_floor]

/-- Claim C4: for every strategy deriveStrategy returns, the drift
penalty recorded in its metadata is (count of LEGAL_REJECTION entries)
times -15, the recovery credit is floor(days since the most recent
LEGAL_REJECTION / 180) times +5 (0 when none exists), the applied
adjustment is min(0, drift + recovery), it never exceeds 0, and the
removal probability is max(10, tier base + adjustment). -/
theorem adjustment_formulas :
    ∀ (h : ExecutionHistory) (now : ℚ) (ids : IdGen) (k : ℕ) (e : String)
      (vs : List Violation) (s : EnforcementStrategy),
    deriveStrategy h now ids k e vs = some s →
    s.declarativeMetadata.driftApplied = ((legalRejections (h e)).length : ℚ) * (-15) ∧
    s.declarativeMetadata.recoveryApplied =
      (match ((legalRejections (h e)).map (fun en => en.date)).max? with
       | none => 0
       | some d => ((⌊((now - d) / msPerDay) / 180⌋ : ℤ) : ℚ) * 5) ∧
    min 0 (s.declarativeMetadata.driftApplied + s.declarativeMetadata.recoveryApplied) =
      totalAdjustment now (h e) ∧
    totalAdjustment now (h e) ≤ 0 ∧
    s.removalProbability = max 10 (baseProbability s.type + totalAdjustment now (h e)) := by
  intro h now ids k e vs s hsome
  have hto : totalAdjustment now (h e) ≤ 0 := min_le_left 0 _
  unfold deriveStrategy at hsome
  by_cases hA : (actionableOf h now e vs).isEmpty
  · rw [if_pos hA] at hsome; exact absurd hsome (by simp)
  · rw [if_neg hA] at hsome
    cases hH : (actionableOf h now e vs).filter (fun v => decide (v.severity = Severity.HIGH)) with
    | cons hv rest =>
      rw [hH] at hsome
      injection hsome with hs
      subst hs
      exact ⟨rfl, recoveryAdjustment_eq_max? now (h e), rfl, hto, rfl⟩
    | nil =>
      rw [hH] at hsome
      by_cases h3 : 3 ≤ (actionableOf h now e vs).length
      · rw [if_pos h3] at hsome
        injection hsome with hs
        subst hs
        exact ⟨rfl, recoveryAdjustment_eq_max? now (h e), rfl, hto, rfl⟩
      · rw [if_neg h3] at hsome
        injection hsome with hs
        subst hs
        exact ⟨rfl, recoveryAdjustment_eq_max? now (h e), rfl, hto, rfl⟩

section DecideOnRationalsC

attribute [local semireducible] Rat.add Rat.sub Rat.mul Rat.inv Rat.ofScientific

/-- Witness for C4: under a history holding one LEGAL_REJECTION 200 days
old, the derived strategy records drift -15 and recovery +5, the applied
adjustment is -10 and the probability 45 = max(10, 55 - 10). -/
theorem adjustment_formulas_witness :
    deriveStrategy hC4 nowT genT 0 "E1" [vMed] = some c4s ∧
    c4s.declarativeMetadata.driftApplied = ((legalRejections (hC4 "E1")).length : ℚ) * (-15) ∧
    c4s.declarativeMetadata.recoveryApplied =
      (match ((legalRejections (hC4 "E1")).map (fun en => en.date)).max? with
       | none => 0
       | some d => ((⌊((nowT - d) / msPerDay) / 180⌋ : ℤ) : ℚ) * 5) ∧
    min 0 (c4s.declarativeMetadata.driftApplied + c4s.declarativeMetadata.recoveryApplied) =
      totalAdjustment nowT (hC4 "E1") ∧
    totalAdjustment nowT (hC4 "E1") ≤ 0 ∧
    c4s.removalProbability = max 10 (baseProbability c4s.type + totalAdjustment nowT (hC4 "E1")) := by
  have hd : deriveStrategy hC4 nowT genT 0 "E1" [vMed] = some c4s := by decide
  have hc := adjustment_formulas hC4 nowT genT 0 "E1" [vMed] c4s hd
  exact ⟨hd, hc.1, hc.2.1, hc.2.2.1, hc.2.2.2.1, hc.2.2.2.2⟩

end DecideOnRationalsC

/-- Claim C5: tiering is evaluated first-match over the actionable
violations (post confidence gate and cooldown filter): any HIGH-severity
violation yields CFPB_COMPLAINT at base 85 and HIGH risk; otherwise
three or more actionable violations yield ESCALATION at base 70 and
MEDIUM risk; otherwise DISPUTE at base 55 and LOW risk; the final
probability is always max(10, base + adjustment). -/
theorem tiering_first_match :
    ∀ (h : ExecutionHistory) (now : ℚ) (ids : IdGen) (k : ℕ) (e : String)
      (vs : List Violation),
    actionableOf h now e vs ≠ [] →
    ∃ s, deriveStrategy h now ids k e vs = some s ∧
      s.targetEntityId = e ∧
      s.violationIds = (actionableOf h now e vs).map (fun v => v.id) ∧
      ((∃ v ∈ actionableOf h now e vs, v.severity = Severity.HIGH) →
        s.type = SType.CFPB_COMPLAINT ∧ s.litigationRisk = Risk.HIGH ∧
        s.removalProbability = max 10 (85 + totalAdjustment now (h e))) ∧
      ((∀ v ∈ actionableOf h now e vs, v.severity ≠ Severity.HIGH) →
        (3 ≤ (actionableOf h now e vs).length →
          s.type = SType.ESCALATION ∧ s.litigationRisk = Risk.MEDIUM ∧
          s.removalProbability = max 10 (70 + totalAdjustment now (h e))) ∧
        ((actionableOf h now e vs).length < 3 →
          s.type = SType.DISPUTE ∧ s.litigationRisk = Risk.LOW ∧
          s.removalProbability = max 10 (55 + totalAdjustment now (h e)))) := by
  intro h now ids k e vs hne
  have hA : (actionableOf h now e vs).isEmpty = false := by
    cases hcase : actionableOf h now e vs with
    | nil => exact absurd hcase hne
    | cons a l => rfl
  unfold deriveStrategy
  simp only [hA, Bool.false_eq_true, if_false]
  cases hH : (actionableOf h now e vs).filter (fun v => decide (v.severity = Severity.HIGH)) with
  | cons hv rest =>
    refine ⟨_, rfl, rfl, rfl, fun _ => ⟨rfl, rfl, rfl⟩, fun hall => ?_⟩
    have hmem : hv ∈ (actionableOf h now e vs).filter
        (fun v => decide (v.severity = Severity.HIGH)) := by
      rw [hH]; exact List.mem_cons_self hv rest
    rw [List.mem_filter] at hmem
    exact absurd (of_decide_eq_true hmem.2) (hall hv hmem.1)
  | nil =>
    have hnoHigh : ∀ hex : ∃ v ∈ actionableOf h now e vs, v.severity = Severity.HIGH, False := by
      intro hex
      obtain ⟨v, hvmem, hvH⟩ := hex
      have hmem : v ∈ (actionableOf h now e vs).filter
          (fun v => decide (v.severity = Severity.HIGH)) :=
        List.mem_filter.mpr ⟨hvmem, decide_eq_true hvH⟩
      rw [hH] at hmem
      exact absurd hmem (List.not_mem_nil v)
    by_cases h3 : 3 ≤ (actionableOf h now e vs).length
    · rw [if_pos h3]
      exact ⟨_, rfl, rfl, rfl, fun hex => absurd hex hnoHigh,
        fun _ => ⟨fun _ => ⟨rfl, rfl, rfl⟩, fun hlt => absurd h3 (not_le.mpr hlt)⟩⟩
    · rw [if_neg h3]
      exact ⟨_, rfl, rfl, rfl, fun hex => absurd hex hnoHigh,
        fun _ => ⟨fun hge => absurd hge h3, fun _ => ⟨rfl, rfl, rfl⟩⟩⟩

section DecideOnRationalsD

attribute [local semireducible] Rat.add Rat.sub Rat.mul Rat.inv Rat.ofScientific

/-- Witness for C5, the spec's own example: one HIGH violation at
confidence 100 and an empty history yield a CFPB_COMPLAINT strategy at
removal probability 85, and generateStrategies returns exactly it. -/
theorem tiering_first_match_witness :
    deriveStrategy hEmpty nowT genT 0 "E1" [vHighT] = some c5s ∧
    c5s.type = SType.CFPB_COMPLAINT ∧ c5s.litigationRisk = Risk.HIGH ∧
    c5s.removalProbability = 85 ∧
    (generateStrategies hEmpty nowT genT 0 profHigh).2.1 = [c5s] := by
  obtain ⟨s, hs, -, -, hHigh, -⟩ :=
    tiering_first_match hEmpty nowT genT 0 "E1" [vHighT] (by decide)
  have hsc : s = c5s := by
    have h2 : deriveStrategy hEmpty nowT genT 0 "E1" [vHighT] = some c5s := by decide
    exact Option.some.inj (hs.symm.trans h2)
  subst hsc
  obtain ⟨ht, hr, hp⟩ := hHigh ⟨vHighT, by decide, rfl⟩
  refine ⟨hs, ht, hr, ?_, by decide⟩
  rw [hp]; decide

end DecideOnRationalsD

theorem deriveStrategy_target :
    ∀ (h : ExecutionHistory) (now : ℚ) (ids : IdGen) (k : ℕ) (e : String)
      (vs : List Violation) (s : EnforcementStrategy),
    deriveStrategy h now ids k e vs = some s → s.targetEntityId = e := by
  intro h now ids k e vs s hsome
  unfold deriveStrategy at hsome
  by_cases hA : (actionableOf h now e vs).isEmpty
  · rw [if_pos hA] at hsome; exact absurd hsome (by simp)
  · rw [if_neg hA] at hsome
    cases hH : (actionableOf h now e vs).filter (fun v => decide (v.severity = Severity.HIGH)) with
    | cons hv rest =>
      rw [hH] at hsome; injection hsome with hs; subst hs; rfl
    | nil =>
      rw [hH] at hsome
      by_cases h3 : 3 ≤ (actionableOf h now e vs).length
      · rw [if_pos h3] at hsome; injection hsome with hs; subst hs; rfl
      · rw [if_neg h3] at hsome; injection hsome with hs; subst hs; rfl

theorem generateStrategiesGo_not_frozen :
    ∀ (h : ExecutionHistory) (now : ℚ) (ids : IdGen) (p : UserCreditProfile)
      (valid : List Violation) (es : List String) (k : ℕ) (s : EnforcementStrategy),
    s ∈ (generateStrategiesGo h now ids p valid es k).1 →
    conflictFrozen p s.targetEntityId = false := by
  intro h now ids p valid es
  induction es with
  | nil => intro k s hs; exact absurd hs (List.not_mem_nil s)
  | cons e rest ih =>
    intro k s hs
    unfold generateStrategiesGo at hs
    by_cases hcf : conflictFrozen p e
    · rw [if_pos hcf] at hs
      exact ih k s hs
    · rw [if_neg hcf] at hs
      cases hd : deriveStrategy h now ids k e (violationsFor valid e) with
      | none => rw [hd] at hs; exact ih k s hs
      | some s0 =>
        rw [hd] at hs
        rcases List.mem_cons.mp hs with h1 | h1
        · subst h1
          rw [deriveStrategy_target h now ids k e (violationsFor valid e) _ hd]
          exact Bool.eq_false_iff.mpr hcf
        · exact ih (k + 1) s h1

theorem generateStrategies_strategies (h : ExecutionHistory) (now : ℚ)
    (ids : IdGen) (k : ℕ) (p : UserCreditProfile) :
    (generateStrategies h now ids k p).2.1 =
      (generateStrategiesGo h now ids p (validViolations p)
        (entityOrder (validViolations p)) k).1 := rfl

theorem conflictFrozen_eq_true_of (profile : UserCreditProfile) (e : String)
    (t : Tradeline)
    (hfind : profile.tradelines.find? (fun tr => decide (tr.id = e)) = some t)
    (hconf : 90 ≤ t.balance.confidence)
    (horig : t.balance.originalValue = "CONFLICT") :
    conflictFrozen profile e = true := by
  unfold conflictFrozen
  rw [hfind]
  show (decide (90 ≤ t.balance.confidence) && decide (t.balance.originalValue = "CONFLICT")) = true
  rw [decide_eq_true hconf, decide_eq_true horig]
  rfl

/-- Claim C6: when an entity's tradeline (as generateStrategies looks it
up) has its balance field set to the CONFLICT sentinel with confidence at
least 90, generateStrategies produces no strategy targeting that entity,
even when its violations pass the confidence gate. -/
theorem conflict_freeze :
    ∀ (h : ExecutionHistory) (now : ℚ) (ids : IdGen) (k : ℕ)
      (profile : UserCreditProfile) (e : String) (t : Tradeline),
    profile.tradelines.find? (fun tr => decide (tr.id = e)) = some t →
    t.balance.value = JsVal.str "CONFLICT" →
    t.balance.originalValue = "CONFLICT" →
    90 ≤ t.balance.confidence →
    ((generateStrategies h now ids k profile).2.1.filter
      (fun s => decide (s.targetEntityId = e))) = [] := by
  intro h now ids k profile e t hfind _hval horig hconf
  rw [List.filter_eq_nil_iff]
  intro s hs hpred
  rw [generateStrategies_strategies] at hs
  have hnf := generateStrategiesGo_not_frozen h now ids profile _ _ k s hs
  have hse : s.targetEntityId = e := of_decide_eq_true hpred
  rw [hse, conflictFrozen_eq_true_of profile e t hfind hconf horig] at hnf
  exact absurd hnf (by decide)

section DecideOnRationalsE

attribute [local semireducible] Rat.add Rat.sub Rat.mul Rat.inv Rat.ofScientific

/-- Witness for C6: a profile whose entity E1 has its balance frozen at
the CONFLICT sentinel (confidence 95) and a HIGH violation at confidence
100 yields no strategy targeting E1. -/
theorem conflict_freeze_witness :
    ((generateStrategies hEmpty nowT genT 0 profConflict).2.1.filter
      (fun s => decide (s.targetEntityId = "E1"))) = [] :=
  conflict_freeze hEmpty nowT genT 0 profConflict "E1" tlConflict
    (by decide) (by decide) (by decide) (by decide)

end DecideOnRationalsE

theorem strategyFingerprintPart_id (s : EnforcementStrategy) (x : String) :
    strategyFingerprintPart { s with id := x } = strategyFingerprintPart s := rfl

theorem deriveStrategy_ids :
    ∀ (h : ExecutionHistory) (now : ℚ) (ids ids' : IdGen) (k k' : ℕ) (e : String)
      (vs : List Violation),
    deriveStrategy h now ids k e vs =
      (deriveStrategy h now ids' k' e vs).map (fun s => { s with id := ids k }) := by
  intro h now ids ids' k k' e vs
  unfold deriveStrategy
  by_cases hA : (actionableOf h now e vs).isEmpty
  · rw [if_pos hA, if_pos hA]; rfl
  · rw [if_neg hA, if_neg hA]
    cases hH : (actionableOf h now e vs).filter (fun v => decide (v.severity = Severity.HIGH)) with
    | cons hv rest => rfl
    | nil =>
      by_cases h3 : 3 ≤ (actionableOf h now e vs).length
      · rw [if_pos h3, if_pos h3]; rfl
      · rw [if_neg h3, if_neg h3]; rfl

theorem generateStrategiesGo_fingerprint :
    ∀ (h : ExecutionHistory) (now : ℚ) (ids ids' : IdGen) (p : UserCreditProfile)
      (valid : List Violation) (es : List String) (k k' : ℕ),
    ((generateStrategiesGo h now ids p valid es k).1).map strategyFingerprintPart =
      ((generateStrategiesGo h now ids' p valid es k').1).map strategyFingerprintPart := by
  intro h now ids ids' p valid es
  induction es with
  | nil => intro k k'; rfl
  | cons e rest ih =>
    intro k k'
    unfold generateStrategiesGo
    by_cases hcf : conflictFrozen p e
    · rw [if_pos hcf, if_pos hcf]; exact ih k k'
    · rw [if_neg hcf, if_neg hcf]
      rw [deriveStrategy_ids h now ids ids' k k' e (violationsFor valid e)]
      cases hd : deriveStrategy h now ids' k' e (violationsFor valid e) with
      | none =>
        simp only [Option.map_none']
        exact ih k k'
      | some s0 =>
        simp only [Option.map_some', List.map_cons, strategyFingerprintPart_id]
        rw [ih (k + 1) (k' + 1)]

theorem generatePlanHash_generateStrategies (h : ExecutionHistory) (now : ℚ)
    (ids : IdGen) (k : ℕ) (p : UserCreditProfile) :
    generatePlanHash (generateStrategies h now ids k p).1 =
      String.intercalate "|" (sortStrings
        (((generateStrategiesGo h now ids p (validViolations p)
          (entityOrder (validViolations p)) k).1).map strategyFingerprintPart)) := rfl

section DecideOnRationalsF

attribute [local semireducible] Rat.add Rat.sub Rat.mul Rat.inv Rat.ofScientific

/-- Claim C1.  First conjunct (holds): two generateStrategies passes on
an unchanged profile produce the same plan fingerprint, whatever uuids
are drawn.  Remaining conjuncts evaluate the code at the failing input of
the claim's second half: a second executeLifecycle pass for the same
subject with no intervening change re-seeds orchestration (seeded = true
again) instead of skipping it, because the re-scan minted fresh violation
ids and the fingerprint no longer matches the one just stored. -/
theorem plan_fingerprint_idempotent_but_second_pass_reseeds :
    (∀ (h : ExecutionHistory) (now : ℚ) (ids ids' : IdGen) (k k' : ℕ)
       (profile : UserCreditProfile),
      generatePlanHash (generateStrategies h now ids k profile).1 =
        generatePlanHash (generateStrategies h now ids' k' profile).1) ∧
    lcRun1.seeded = true ∧
    lcRun1.lastPlanHashes "S1" = some (generatePlanHash lcRun1.profile) ∧
    lcRun2.seeded = true ∧
    lcRun2.events = ["COMPLETE"] ∧
    generatePlanHash lcRun2.profile ≠ generatePlanHash lcRun1.profile := by
  constructor
  · intro h now ids ids' k k' profile
    rw [generatePlanHash_generateStrategies, generatePlanHash_generateStrategies,
      generateStrategiesGo_fingerprint h now ids ids' profile (validViolations profile)
        (entityOrder (validViolations profile)) k k']
  · decide

end DecideOnRationalsF

theorem mergeInto_id (t1 t2 : Tradeline) : (mergeInto t1 t2).id = t1.id := by
  unfold mergeInto mergeSource
  split <;> split <;> rfl

theorem getD_mem_or_default {α : Type} (l : List α) (i : ℕ) (d : α) :
    l.getD i d ∈ l ∨ l.getD i d = d := by
  rw [List.getD_eq_getElem?_getD]
  cases hg : l[i]? with
  | some a =>
    left
    rw [Option.getD_some]
    exact List.getElem?_mem hg
  | none => right; rfl

theorem resolveAux_length :
    ∀ (l resolved : List Tradeline),
    (resolveAux resolved l).length ≤ resolved.length + l.length := by
  intro l
  induction l with
  | nil => intro resolved; simp [resolveAux]
  | cons tl rest ih =>
    intro resolved
    unfold resolveAux
    cases hidx : resolved.findIdx? (fun r => isDuplicate r tl) with
    | some i =>
      have h2 := ih (resolved.set i (mergeInto (resolved.getD i tl) tl))
      rw [List.length_set] at h2
      calc (resolveAux (resolved.set i (mergeInto (resolved.getD i tl) tl)) rest).length
          ≤ resolved.length + rest.length := h2
        _ ≤ resolved.length + (tl :: rest).length := by simp only [List.length_cons]; omega
    | none =>
      have h2 := ih (resolved ++ [tl])
      rw [List.length_append] at h2
      calc (resolveAux (resolved ++ [tl]) rest).length
          ≤ resolved.length + 1 + rest.length := h2
        _ = resolved.length + (tl :: rest).length := by simp only [List.length_cons]; omega

theorem resolveAux_ids :
    ∀ (l resolved : List Tradeline) (r : Tradeline),
    r ∈ resolveAux resolved l →
    r.id ∈ resolved.map (fun t => t.id) ++ l.map (fun t => t.id) := by
  intro l
  induction l with
  | nil =>
    intro resolved r hr
    rw [List.map_nil, List.append_nil]
    exact List.mem_map_of_mem _ (by simpa [resolveAux] using hr)
  | cons tl rest ih =>
    intro resolved r hr
    unfold resolveAux at hr
    cases hidx : resolved.findIdx? (fun r => isDuplicate r tl) with
    | some i =>
      rw [hidx] at hr
      have h2 := ih (resolved.set i (mergeInto (resolved.getD i tl) tl)) r hr
      rw [List.mem_append] at h2
      rcases h2 with h2 | h2
      · rw [List.mem_map] at h2
        obtain ⟨a, haset, haid⟩ := h2
        rcases List.mem_or_eq_of_mem_set haset with ha | ha
        · rw [← haid]
          exact List.mem_append_left _ (List.mem_map_of_mem _ ha)
        · subst ha
          rw [← haid, mergeInto_id]
          rcases getD_mem_or_default resolved i tl with hg | hg
          · exact List.mem_append_left _ (List.mem_map_of_mem _ hg)
          · rw [hg]
            exact List.mem_append_right _ (by simp)
      · exact List.mem_append_right _ (List.mem_cons_of_mem _ h2)
    | none =>
      rw [hidx] at hr
      have h2 := ih (resolved ++ [tl]) r hr
      rw [List.mem_append, List.map_append, List.mem_append] at h2
      rcases h2 with (h2 | h2) | h2
      · exact List.mem_append_left _ h2
      · simp only [List.map_cons, List.map_nil, List.mem_singleton] at h2
        rw [h2]
        exact List.mem_append_right _ (by simp)
      · exact List.mem_append_right _ (List.mem_cons_of_mem _ h2)

/-- Claim C8 as amended: the first-seen record of a duplicate pair is
kept and the later duplicate merged into it; the merge replaces only the
balance field (exactly when the incoming balance confidence strictly
exceeds the kept one) and concatenates only the creditor provenance
string (when not already a substring); every other field keeps its
first-seen value; the output never grows beyond the input and every
output record originates from an input record. -/
theorem merge_policy_amended :
    (∀ t1 t2 : Tradeline, isDuplicate t1 t2 = true →
      resolveTradelineDuplicates [t1, t2] = [mergeInto t1 t2]) ∧
    (∀ t1 t2 : Tradeline,
      (mergeInto t1 t2).balance =
        (if t1.balance.confidence < t2.balance.confidence then t2.balance else t1.balance) ∧
      (mergeInto t1 t2).creditor.source =
        (if strContains t1.creditor.source t2.creditor.source then t1.creditor.source
         else t1.creditor.source ++ ", " ++ t2.creditor.source) ∧
      (mergeInto t1 t2).id = t1.id ∧
      (mergeInto t1 t2).creditor.value = t1.creditor.value ∧
      (mergeInto t1 t2).accountNumber = t1.accountNumber ∧
      (mergeInto t1 t2).accountType = t1.accountType ∧
      (mergeInto t1 t2).dateOpened = t1.dateOpened ∧
      (mergeInto t1 t2).dateLastActive = t1.dateLastActive ∧
      (mergeInto t1 t2).dateClosed = t1.dateClosed ∧
      (mergeInto t1 t2).creditLimit = t1.creditLimit ∧
      (mergeInto t1 t2).pastDueAmount = t1.pastDueAmount ∧
      (mergeInto t1 t2).status = t1.status ∧
      (mergeInto t1 t2).statusCode = t1.statusCode ∧
      (mergeInto t1 t2).violations = t1.violations) ∧
    (∀ l : List Tradeline, (resolveTradelineDuplicates l).length ≤ l.length) ∧
    (∀ l : List Tradeline, ∀ r ∈ resolveTradelineDuplicates l,
      r.id ∈ l.map (fun t => t.id)) := by
  refine ⟨?_, ?_, ?_, ?_⟩
  · intro t1 t2 hdup
    have hidx : ([t1].findIdx? fun r => isDuplicate r t2) = some 0 := by
      simp [List.findIdx?_cons, hdup]
    show resolveAux [t1] [t2] = [mergeInto t1 t2]
    unfold resolveAux
    rw [hidx]
    rfl
  · intro t1 t2
    unfold mergeInto mergeSource
    by_cases hb : t1.balance.confidence < t2.balance.confidence <;>
      by_cases hs : strContains t1.creditor.source t2.creditor.source <;>
        simp [hb, hs]
  · intro l
    have h2 := resolveAux_length l []
    simpa using h2
  · intro l r hr
    have h2 := resolveAux_ids l [] r (by simpa [resolveTradelineDuplicates] using hr)
    simpa using h2

section DecideOnRationalsG

attribute [local semireducible] Rat.add Rat.sub Rat.mul Rat.inv Rat.ofScientific

/-- Counterexample to C8 as stated: tuB duplicates tuA (account-number
overlap) and carries a strictly higher-confidence pastDueAmount, yet the
merged record keeps tuA's pastDueAmount — only the balance field
participates in confidence-based replacement. -/
theorem merge_policy_counterexample :
    isDuplicate tuA tuB = true ∧
    tuA.pastDueAmount.confidence < tuB.pastDueAmount.confidence ∧
    (resolveTradelineDuplicates [tuA, tuB]).map (fun t => t.pastDueAmount) =
      [tuA.pastDueAmount] ∧
    tuA.pastDueAmount ≠ tuB.pastDueAmount := by
  decide

/-- Witness for the amended C8 at concrete records. -/
theorem merge_policy_amended_witness :
    resolveTradelineDuplicates [tuA, tuB] = [mergeInto tuA tuB] ∧
    (mergeInto tuA tuB).pastDueAmount = tuA.pastDueAmount ∧
    (mergeInto tuA tuB).creditor.source = "src-a, src-b" ∧
    (resolveTradelineDuplicates [tuA, tuB]).length ≤ 2 ∧
    (mergeInto tuA tuB).id ∈ [tuA, tuB].map (fun t => t.id) := by
  have h1 := merge_policy_amended.1 tuA tuB (by decide)
  refine ⟨h1, (merge_policy_amended.2.1 tuA tuB).2.2.2.2.2.2.2.2.2.2.1, by decide,
    merge_policy_amended.2.2.1 [tuA, tuB], ?_⟩
  exact merge_policy_amended.2.2.2 [tuA, tuB] (mergeInto tuA tuB)
    (by rw [h1]; exact List.mem_singleton.mpr rfl)

end DecideOnRationalsG

theorem jsRound_eq (q : ℚ) : jsRound q = ⌊q + 1 / 2⌋ := by
  unfold jsRound
  exact jsFloor_eq_floor _

theorem round_max_zero (x : ℚ) :
    ((jsRound (max 0 x) : ℤ) : ℚ) = max 0 ((jsRound x : ℤ) : ℚ) := by
  rw [jsRound_eq, jsRound_eq]
  have h1 : max (0 : ℚ) x + 1 / 2 = max (1 / 2) (x + 1 / 2) := by
    rw [← max_add_add_right]
    norm_num
  rw [h1]
  have h2 : ⌊(1 / 2 : ℚ)⌋ = 0 := by norm_num
  rcases le_total ((1 : ℚ) / 2) (x + 1 / 2) with hle | hle
  · have h3 : (0 : ℤ) ≤ ⌊x + 1 / 2⌋ := h2 ▸ Int.floor_mono hle
    rw [max_eq_right hle,
      max_eq_right (show (0 : ℚ) ≤ ((⌊x + 1 / 2⌋ : ℤ) : ℚ) from by exact_mod_cast h3)]
  · have h3 : ⌊x + 1 / 2⌋ ≤ 0 := h2 ▸ Int.floor_mono hle
    rw [max_eq_left hle,
      max_eq_left (show ((⌊x + 1 / 2⌋ : ℤ) : ℚ) ≤ 0 from by exact_mod_cast h3), h2]
    norm_num

/-- Claim C9 as amended: for a positive elapsed age, the decay is
multiplicative — with k = floor(daysSince / 30) elapsed periods, the
result is max(0, round(c - 0.05 k c)), i.e. 5 percent of the initial
confidence per period, not 5 percentage points — and never negative.
(For a non-positive age the input confidence is returned unchanged.) -/
theorem calculateConfidenceDecay_closed_form :
    ∀ (c now reported : ℚ), 0 < diffInDays now reported →
    calculateConfidenceDecay c now reported =
      max 0 ((jsRound (c - c * ((Int.fdiv (diffInDays now reported) 30 : ℤ) : ℚ) / 20) : ℤ) : ℚ) ∧
    0 ≤ calculateConfidenceDecay c now reported := by
  intro c now reported hpos
  have hne : ¬ (diffInDays now reported ≤ 0) := not_le.mpr hpos
  have heq : calculateConfidenceDecay c now reported =
      ((jsRound (max 0 (c * (1 - ((Int.fdiv (diffInDays now reported) 30 : ℤ) : ℚ) * (1 / 20)))) : ℤ) : ℚ) := by
    unfold calculateConfidenceDecay
    rw [if_neg hne]
  constructor
  · rw [heq,
      show c * (1 - ((Int.fdiv (diffInDays now reported) 30 : ℤ) : ℚ) * (1 / 20)) =
        c - c * ((Int.fdiv (diffInDays now reported) 30 : ℤ) : ℚ) / 20 from by ring]
    exact round_max_zero _
  · rw [heq, round_max_zero]
    exact le_max_left 0 _

section DecideOnRationalsH

attribute [local semireducible] Rat.add Rat.sub Rat.mul Rat.inv Rat.ofScientific

/-- Counterexample to C9 as stated: confidence 80 with one elapsed 30-day
period (35 days old) decays to 76 = round(80 * 0.95), not to the claimed
75 = max(0, 80 - 5 * 1). -/
theorem calculateConfidenceDecay_counterexample :
    calculateConfidenceDecay 80 (35 * msPerDay) 0 = 76 ∧
    max (0 : ℚ) (80 - 5 * 1) = 75 ∧
    (76 : ℚ) ≠ 75 := by
  decide

/-- Witness for the amended C9 at the same concrete input. -/
theorem calculateConfidenceDecay_closed_form_witness :
    calculateConfidenceDecay 80 (35 * msPerDay) 0 =
      max 0 ((jsRound (80 - 80 * ((Int.fdiv (diffInDays (35 * msPerDay) 0) 30 : ℤ) : ℚ) / 20) : ℤ) : ℚ) ∧
    0 ≤ calculateConfidenceDecay 80 (35 * msPerDay) 0 :=
  calculateConfidenceDecay_closed_form 80 (35 * msPerDay) 0 (by decide)

end DecideOnRationalsH

theorem planSteps_skillIds :
    ∀ (now : ℚ) (ids : IdGen) (uid : String)
      (strategies : List EnforcementStrategy) (k : ℕ),
    ((planStepsFromStrategies now ids uid strategies k).1).map (fun st => st.skillId) =
      strategies.filterMap (fun s => skillIdMap s.type) := by
  intro now ids uid strategies
  induction strategies with
  | nil => intro k; rfl
  | cons s rest ih =>
    intro k
    unfold planStepsFromStrategies
    cases hst : s.type <;>
      simp [skillIdMap, skillRegistryIds, List.filterMap_cons, ih, hst]

/-- Claim C10: generatePlanFromStrategies creates steps only for DISPUTE
and CFPB_COMPLAINT strategies (mapped to their registered skill ids
through skillIdMap); ESCALATION maps to no skill, so a profile whose
active strategies are all ESCALATION seeds a plan with an empty step
list. -/
theorem plan_seeding_skill_map :
    ∀ (now : ℚ) (ids : IdGen) (k : ℕ) (profile : UserCreditProfile),
    ((generatePlanFromStrategies now ids k profile).1.steps).map (fun st => st.skillId) =
      profile.activeStrategies.filterMap (fun s => skillIdMap s.type) ∧
    skillIdMap SType.ESCALATION = none ∧
    ((∀ s ∈ profile.activeStrategies, s.type = SType.ESCALATION) →
      (generatePlanFromStrategies now ids k profile).1.steps = []) := by
  intro now ids k profile
  refine ⟨planSteps_skillIds now ids profile.userId profile.activeStrategies k, rfl, ?_⟩
  intro hall
  have h1 : profile.activeStrategies.filterMap (fun s => skillIdMap s.type) = [] := by
    rw [List.filterMap_eq_nil_iff]
    intro a ha
    rw [hall a ha]
    rfl
  have h2 := planSteps_skillIds now ids profile.userId profile.activeStrategies k
  rw [h1] at h2
  exact List.map_eq_nil_iff.mp h2

/-- Witness for C10: a profile with a single ESCALATION strategy seeds a
plan with no steps. -/
theorem plan_seeding_skill_map_witness :
    (generatePlanFromStrategies nowT genT 0 profEsc).1.steps = [] ∧
    ((generatePlanFromStrategies nowT genT 0 profEsc).1.steps).map (fun st => st.skillId) =
      profEsc.activeStrategies.filterMap (fun s => skillIdMap s.type) := by
  refine ⟨(plan_seeding_skill_map nowT genT 0 profEsc).2.2 ?_,
    (plan_seeding_skill_map nowT genT 0 profEsc).1⟩
  intro s hs
  have hse : s = escS := by simpa [profEsc] using hs
  rw [hse]
  rfl

end MerryMac
